import Mathlib

/-!
# ESHM: shallow embedding of the shared-memory channel core

This file embeds the core of the ESHM inter-process communication library
(`eshm.c` together with its headers `eshm.h` / `eshm_data.h`) in Lean and
proves properties about it.

Conventions of the embedding:

* Machine integers are modelled by `Nat`; the 32-bit sequence counter is kept
  reduced modulo `2 ^ 32` (`UINT32_MOD`) exactly where the C code can wrap.
* C pointers that may be `NULL` are modelled by `Option`; a byte buffer is a
  `List Nat`.
* Calls that execute with no concurrently running writer are modelled by pure
  state-passing functions.  For `eshm_read_timeout` the loop body is modelled
  under quiescence: the one place a racing write can land is between the
  capture of the `write_count` baseline at entry and the first loop
  iteration, so the function takes the region contents seen by the loop
  (`later`) as an explicit argument, while the baseline is computed from the
  handle's region at entry.  With no concurrent publisher the sequence-lock
  retry loop of the reader exits after one pass, which is how the copy is
  modelled.
* The monitor thread's loop body (one 10 ms tick) is modelled as a step
  function on an explicit monitor state; the outcome of `shm_open`/`mmap`
  during a reattach attempt is an environment input.
-/

namespace ESHM

/-- `ESHM_MAX_DATA_SIZE` from the generated `eshm_config.h` (default 4096). -/
def ESHM_MAX_DATA_SIZE : Nat := 4096

/-- Magic marker `0x4553484D` ("ESHM") from `eshm_data.h`. -/
def ESHM_MAGIC : Nat := 0x4553484D

/-- Protocol version from `eshm_data.h`. -/
def ESHM_VERSION : Nat := 2

/-- Modulus of the 32-bit sequence counter. -/
def UINT32_MOD : Nat := 2 ^ 32

/-- Error codes from `enum ESHMError` in `eshm_data.h`. -/
def ESHM_SUCCESS : Int := 0

def ESHM_ERROR_INVALID_PARAM : Int := -1

def ESHM_ERROR_NO_DATA : Int := -9

def ESHM_ERROR_TIMEOUT : Int := -10

def ESHM_ERROR_MASTER_STALE : Int := -11

def ESHM_ERROR_BUFFER_TOO_SMALL : Int := -13

def ESHM_ERROR_NOT_INITIALIZED : Int := -14

/-- `enum ESHMRole` from `eshm_data.h`. -/
inductive ESHMRole where
  | master : ESHMRole
  | slave : ESHMRole
  | auto : ESHMRole
deriving DecidableEq, Repr

/-- `enum ESHMDisconnectBehavior` from `eshm_data.h`. -/
inductive ESHMDisconnectBehavior where
  | immediately : ESHMDisconnectBehavior
  | on_timeout : ESHMDisconnectBehavior
  | never : ESHMDisconnectBehavior
deriving DecidableEq, Repr

/-- `struct ESHMSeqLock` from `eshm_data.h`: a 32-bit sequence counter. -/
structure ESHMSeqLock where
  sequence : Nat
deriving DecidableEq, Repr

/-- `struct ESHMChannel` from `eshm_data.h`: one unidirectional channel.
`data` models the fixed `uint8_t data[ESHM_MAX_DATA_SIZE]` buffer. -/
structure ESHMChannel where
  seqlock : ESHMSeqLock
  data_size : Nat
  data : List Nat
  write_count : Nat
  read_count : Nat
deriving DecidableEq, Repr

/-- `struct ESHMHeader` from `eshm_data.h`. -/
structure ESHMHeader where
  magic : Nat
  version : Nat
  master_heartbeat : Nat
  slave_heartbeat : Nat
  master_pid : Nat
  slave_pid : Nat
  master_alive : Nat
  slave_alive : Nat
  stale_threshold : Nat
  master_generation : Nat
deriving DecidableEq, Repr

/-- `struct ESHMData` from `eshm_data.h`: the whole mapped region. -/
structure ESHMData where
  header : ESHMHeader
  master_to_slave : ESHMChannel
  slave_to_master : ESHMChannel
deriving DecidableEq, Repr

/-- `ESHMConfig` from `eshm.h`.  `shm_name = none` models a `NULL` pointer. -/
structure ESHMConfig where
  shm_name : Option String
  role : ESHMRole
  disconnect_behavior : ESHMDisconnectBehavior
  stale_threshold_ms : Nat
  reconnect_wait_ms : Nat
  reconnect_retry_interval_ms : Nat
  max_reconnect_attempts : Nat
  auto_cleanup : Bool
  use_threads : Bool
deriving DecidableEq, Repr

/-- `struct ESHMHandle` from `eshm.c` (the process-local fields the claims
need).  `shm_data = none` models a `NULL` mapping pointer. -/
structure ESHMHandle where
  config : ESHMConfig
  actual_role : ESHMRole
  shm_fd : Int
  shm_name : String
  shm_data : Option ESHMData
  is_creator : Bool
  threads_running : Bool
  last_remote_heartbeat : Nat
  stale_counter : Nat
  remote_is_stale : Bool
  last_master_heartbeat : Nat
  last_slave_heartbeat : Nat
deriving DecidableEq, Repr

/-- `seqlock_write_begin` (`eshm.c` lines 43-47): increment the 32-bit
counter once (to the next odd value when starting from an even one). -/
def seqlock_write_begin (lock : ESHMSeqLock) : ESHMSeqLock :=
  { sequence := (lock.sequence + 1) % UINT32_MOD }

/-- `seqlock_write_end` (`eshm.c` lines 49-52): increment the counter again
(back to an even value). -/
def seqlock_write_end (lock : ESHMSeqLock) : ESHMSeqLock :=
  { sequence := (lock.sequence + 1) % UINT32_MOD }

/-- `seqlock_read_begin` (`eshm.c` lines 54-61).  The successive loads of the
volatile counter are modelled by the observation stream `obs`; the function
spins past odd values and returns the first even value observed, or `none`
when `fuel` loads were all odd. -/
def seqlock_read_begin (obs : Nat → Nat) : Nat → Option Nat
  | 0 => none
  | fuel + 1 =>
    if obs 0 % 2 = 1 then seqlock_read_begin (fun i => obs (i + 1)) fuel
    else some (obs 0)

/-- `seqlock_read_retry` (`eshm.c` lines 63-66): the snapshot must be
discarded when the counter moved while it was taken. -/
def seqlock_read_retry (lock : ESHMSeqLock) (seq : Nat) : Bool :=
  lock.sequence ≠ seq

/-- `init_channel` (`eshm.c` lines 84-91). -/
def init_channel : ESHMChannel :=
  { seqlock := { sequence := 0 }
    data_size := 0
    data := List.replicate ESHM_MAX_DATA_SIZE 0
    write_count := 0
    read_count := 0 }

/-- `init_shm_data` (`eshm.c` lines 94-118). -/
def init_shm_data (stale_threshold_ms : Nat) : ESHMData :=
  { header :=
      { magic := ESHM_MAGIC
        version := ESHM_VERSION
        master_heartbeat := 0
        slave_heartbeat := 0
        master_pid := 0
        slave_pid := 0
        master_alive := 0
        slave_alive := 0
        stale_threshold := stale_threshold_ms
        master_generation := 0 }
    master_to_slave := init_channel
    slave_to_master := init_channel }

/-- `memcpy(dst, src, n)` over list-modelled buffers: the first `n` bytes of
`dst` are replaced by the first `n` bytes of `src`. -/
def memcpyList (dst src : List Nat) (n : Nat) : List Nat :=
  src.take n ++ dst.drop n

/-- The body of the publish in `eshm_write` (`eshm.c` lines 700-705):
`seqlock_write_begin`, `memcpy` of the payload, store of `data_size`,
`seqlock_write_end`, then the atomic increment of `write_count`. -/
def channelWrite (ch : ESHMChannel) (x : List Nat) (size : Nat) : ESHMChannel :=
  let lock1 := seqlock_write_begin ch.seqlock
  let newData := memcpyList ch.data x size
  let lock2 := seqlock_write_end lock1
  { ch with
    seqlock := lock2
    data := newData
    data_size := size
    write_count := ch.write_count + 1 }

/-- Iterated channel publications, for stating that the sequence counter is
even at every quiescent instant along an execution. -/
def channelWriteIter (ch : ESHMChannel) : List (List Nat × Nat) → ESHMChannel
  | [] => ch
  | (x, n) :: rest => channelWriteIter (channelWrite ch x n) rest

/-- The outgoing channel of a handle (`eshm.c` lines 692-697): the MASTER
writes `master_to_slave`, any other role writes `slave_to_master`. -/
def writeChannelOf (h : ESHMHandle) (r : ESHMData) : ESHMChannel :=
  if h.actual_role = ESHMRole.master then r.master_to_slave else r.slave_to_master

/-- The incoming channel of a handle (`eshm.c` lines 736-741): the MASTER
reads `slave_to_master`, any other role reads `master_to_slave`. -/
def readChannelOf (h : ESHMHandle) (r : ESHMData) : ESHMChannel :=
  if h.actual_role = ESHMRole.master then r.slave_to_master else r.master_to_slave

/-- The region contents produced by a successful `eshm_write` of `x` with the
given `size` argument on handle `h` whose mapping holds `r`. -/
def regionAfterWrite (h : ESHMHandle) (r : ESHMData) (x : List Nat) (size : Nat) :
    ESHMData :=
  if h.actual_role = ESHMRole.master then
    { r with master_to_slave := channelWrite r.master_to_slave x size }
  else
    { r with slave_to_master := channelWrite r.slave_to_master x size }

/-- `eshm_write` (`eshm.c` lines 669-708).  `h = none` and `data = none`
model `NULL` arguments.  Returns the error code and the handle as left by
the call. -/
def eshm_write (h : Option ESHMHandle) (data : Option (List Nat)) (size : Nat) :
    Int × Option ESHMHandle :=
  match h with
  | none => (ESHM_ERROR_INVALID_PARAM, none)
  | some hd =>
    match data with
    | none => (ESHM_ERROR_INVALID_PARAM, some hd)
    | some x =>
      match hd.shm_data with
      | none =>
        if hd.remote_is_stale then (ESHM_ERROR_TIMEOUT, some hd)
        else (ESHM_ERROR_NOT_INITIALIZED, some hd)
      | some r =>
        if ESHM_MAX_DATA_SIZE < size then (ESHM_ERROR_BUFFER_TOO_SMALL, some hd)
        else
          (ESHM_SUCCESS, some { hd with shm_data := some (regionAfterWrite hd r x size) })

/-- Outcome of a read call: either the delivered bytes together with the
reported `bytes_read`, or an error code. -/
inductive ReadOutcome where
  | success (bytes : List Nat) (bytes_read : Nat) : ReadOutcome
  | error (code : Int) : ReadOutcome
deriving DecidableEq, Repr

/-- The region contents after a successful read on handle `h`: the incoming
channel's advisory `read_count` is incremented (`eshm.c` line 779). -/
def regionAfterRead (h : ESHMHandle) (r : ESHMData) : ESHMData :=
  if h.actual_role = ESHMRole.master then
    { r with slave_to_master :=
        { r.slave_to_master with read_count := r.slave_to_master.read_count + 1 } }
  else
    { r with master_to_slave :=
        { r.master_to_slave with read_count := r.master_to_slave.read_count + 1 } }

/-- `eshm_read_timeout` (`eshm.c` lines 710-797) under quiescence.
`bufferPresent = false` models a `NULL` buffer pointer.  The `write_count`
baseline is taken from the handle's region at entry (line 744); `later` is
the region contents observed by the poll loop, so a single racing write is
the difference between `later` and the entry contents.  With no concurrent
publisher the sequence-lock retry loop exits after one pass and, when no new
data is present, the poll loop runs until its budget elapses, which the model
collapses into the immediate `NO_DATA`/`TIMEOUT` outcome.  Returns the
outcome and the region contents as left by the call. -/
def eshm_read_timeout (h : Option ESHMHandle) (bufferPresent : Bool)
    (buffer_size : Nat) (timeout_ms : Nat) (later : ESHMData) :
    ReadOutcome × ESHMData :=
  match h with
  | none => (ReadOutcome.error ESHM_ERROR_INVALID_PARAM, later)
  | some hd =>
    if bufferPresent = false then (ReadOutcome.error ESHM_ERROR_INVALID_PARAM, later)
    else
      match hd.shm_data with
      | none =>
        if hd.remote_is_stale then (ReadOutcome.error ESHM_ERROR_TIMEOUT, later)
        else (ReadOutcome.error ESHM_ERROR_NOT_INITIALIZED, later)
      | some entry =>
        if hd.remote_is_stale ∧
            hd.config.disconnect_behavior = ESHMDisconnectBehavior.immediately then
          (ReadOutcome.error ESHM_ERROR_MASTER_STALE, later)
        else
          let last_write_count := (readChannelOf hd entry).write_count
          let ch := readChannelOf hd later
          if last_write_count < ch.write_count then
            if buffer_size < ch.data_size then
              (ReadOutcome.error ESHM_ERROR_BUFFER_TOO_SMALL, later)
            else
              (ReadOutcome.success (ch.data.take ch.data_size) ch.data_size,
               regionAfterRead hd later)
          else if timeout_ms = 0 then (ReadOutcome.error ESHM_ERROR_NO_DATA, later)
          else (ReadOutcome.error ESHM_ERROR_TIMEOUT, later)

/-- `eshm_read_ex` (`eshm.c` lines 800-803) simply forwards to
`eshm_read_timeout`. -/
def eshm_read_ex (h : Option ESHMHandle) (bufferPresent : Bool)
    (buffer_size : Nat) (timeout_ms : Nat) (later : ESHMData) :
    ReadOutcome × ESHMData :=
  eshm_read_timeout h bufferPresent buffer_size timeout_ms later

/-- `generate_shm_name` (`eshm.c` lines 120-132): prepend `/eshm_` and
rewrite every path separator in the identifier to an underscore. -/
def generate_shm_name (name : String) : String :=
  String.mk ("/eshm_".data ++ name.data.map (fun c => if c = '/' then '_' else c))

/-- The parameter validation at the top of `eshm_init` (`eshm.c` lines
360-363): the call returns `NULL` immediately, creating nothing, exactly when
the config pointer or the identifier pointer is `NULL`; otherwise it proceeds
to region creation/attachment. -/
def eshm_init_param_check (config : Option ESHMConfig) : Bool :=
  match config with
  | none => false
  | some c => c.shm_name.isSome

/-- Monitor tick interval, `check_interval_ms` in `monitor_thread_func`
(`eshm.c` line 190). -/
def monitor_check_interval_ms : Nat := 10

/-- Outcome of `shm_open` + `mmap` during a reattach attempt (`eshm.c` lines
228-233): either the open/map fails, or it yields a mapping with the given
region contents and descriptor. -/
inductive AttachOutcome where
  | fail : AttachOutcome
  | mapped (d : ESHMData) (fd : Int) : AttachOutcome
deriving DecidableEq, Repr

/-- One reattach attempt of the SLAVE monitor (`eshm.c` lines 213-271).  The
old mapping is detached first (the mapping pointer is nulled, then the old
region unmapped).  When the fresh mapping is valid and its MASTER heartbeat
differs from the last observed remote heartbeat, the mapping is adopted: the
new pointer and descriptor are stored, the slave PID and alive flag written,
and the staleness bookkeeping reset.  Returns the handle as left by the
attempt together with whether the mapping was adopted. -/
def slaveReattachAttempt (h : ESHMHandle) (pid : Nat) (env : AttachOutcome) :
    ESHMHandle × Bool :=
  let detached : ESHMHandle := { h with shm_data := none }
  match env with
  | AttachOutcome.fail => (detached, false)
  | AttachOutcome.mapped d fd =>
    if d.header.magic ≠ ESHM_MAGIC then (detached, false)
    else if d.header.master_heartbeat = h.last_remote_heartbeat then (detached, false)
    else
      ({ detached with
          shm_fd := fd
          shm_data := some
            { d with header := { d.header with slave_pid := pid, slave_alive := 1 } }
          remote_is_stale := false
          stale_counter := 0
          last_remote_heartbeat := d.header.master_heartbeat }, true)

/-- State of one monitor-thread loop iteration: the handle plus the local
variables of `monitor_thread_func` (`eshm.c` lines 191-194). -/
structure MonitorState where
  h : ESHMHandle
  reconnect_wait_counter : Nat
  reconnect_attempt_counter : Nat
  reconnect_attempts : Nat
  in_reconnect_mode : Bool
deriving DecidableEq, Repr

/-- The reattach-mode body of the monitor loop (`eshm.c` lines 200-299).
Both counters accrue one tick interval; when the attempt counter reaches the
retry interval an attempt is performed, the maximum-attempts bound is checked
on failure, and the total-wait bound is checked afterwards (also on ticks
with no attempt). -/
def reattachTick (pid : Nat) (env : AttachOutcome) (s : MonitorState) : MonitorState :=
  let wait := s.reconnect_wait_counter + monitor_check_interval_ms
  let ac := s.reconnect_attempt_counter + monitor_check_interval_ms
  if s.h.config.reconnect_retry_interval_ms ≤ ac then
    let attempts := s.reconnect_attempts + 1
    let attempt := slaveReattachAttempt s.h pid env
    if attempt.2 then
      { h := attempt.1
        reconnect_wait_counter := 0
        reconnect_attempt_counter := 0
        reconnect_attempts := 0
        in_reconnect_mode := false }
    else if 0 < s.h.config.max_reconnect_attempts ∧
            s.h.config.max_reconnect_attempts ≤ attempts then
      { s with
          h := { attempt.1 with threads_running := false }
          reconnect_wait_counter := wait
          reconnect_attempt_counter := 0
          reconnect_attempts := attempts }
    else if 0 < s.h.config.reconnect_wait_ms ∧
            s.h.config.reconnect_wait_ms ≤ wait then
      { s with
          h := { attempt.1 with threads_running := false }
          reconnect_wait_counter := wait
          reconnect_attempt_counter := 0
          reconnect_attempts := attempts }
    else
      { s with
          h := attempt.1
          reconnect_wait_counter := wait
          reconnect_attempt_counter := 0
          reconnect_attempts := attempts }
  else
    if 0 < s.h.config.reconnect_wait_ms ∧ s.h.config.reconnect_wait_ms ≤ wait then
      { s with
          h := { s.h with threads_running := false }
          reconnect_wait_counter := wait
          reconnect_attempt_counter := ac }
    else
      { s with reconnect_wait_counter := wait, reconnect_attempt_counter := ac }

/-- The normal-monitoring body of the monitor loop (`eshm.c` lines 301-353):
sample the remote heartbeat; when it is unchanged accrue the stale counter
and, past the threshold, declare the remote stale (a SLAVE then either stops
or enters reattach mode depending on the disconnect policy); when it changed,
reset the staleness bookkeeping. -/
def normalMonitorTick (s : MonitorState) : MonitorState :=
  match s.h.shm_data with
  | none => s
  | some r =>
    let current :=
      if s.h.actual_role = ESHMRole.master then r.header.slave_heartbeat
      else r.header.master_heartbeat
    let threshold := r.header.stale_threshold
    if current = s.h.last_remote_heartbeat then
      let sc := s.h.stale_counter + monitor_check_interval_ms
      if threshold ≤ sc ∧ s.h.remote_is_stale = false then
        if s.h.actual_role = ESHMRole.slave then
          if s.h.config.disconnect_behavior = ESHMDisconnectBehavior.immediately then
            { s with h :=
                { s.h with
                    stale_counter := sc
                    remote_is_stale := true
                    threads_running := false } }
          else
            { s with
                h := { s.h with stale_counter := sc, remote_is_stale := true }
                in_reconnect_mode := true
                reconnect_wait_counter := 0
                reconnect_attempt_counter := s.h.config.reconnect_retry_interval_ms }
        else
          { s with h := { s.h with stale_counter := sc, remote_is_stale := true } }
      else
        { s with h := { s.h with stale_counter := sc } }
    else
      { s with h :=
          { s.h with
              stale_counter := 0
              remote_is_stale := false
              last_remote_heartbeat := current } }

/-- One iteration of the monitor loop (`eshm.c` lines 196-354): nothing
happens once the running flag is clear; a SLAVE in reconnect mode runs the
reattach body, otherwise the normal-monitoring body runs. -/
def monitorTick (pid : Nat) (env : AttachOutcome) (s : MonitorState) : MonitorState :=
  if s.h.threads_running = false then s
  else if s.h.actual_role = ESHMRole.slave ∧ s.in_reconnect_mode = true then
    reattachTick pid env s
  else normalMonitorTick s

/-- `t` iterations of the monitor loop, the attempt environment of iteration
`k` being `env k`. -/
def monitorRun (pid : Nat) (env : Nat → AttachOutcome) (s : MonitorState) :
    Nat → MonitorState
  | 0 => s
  | t + 1 => monitorTick pid (env t) (monitorRun pid env s t)

/-! ### Concrete sample values, used by the witnesses -/

/-- A concrete region header with valid magic. -/
def sampleHeader : ESHMHeader :=
  { magic := ESHM_MAGIC
    version := ESHM_VERSION
    master_heartbeat := 5
    slave_heartbeat := 7
    master_pid := 100
    slave_pid := 200
    master_alive := 1
    slave_alive := 1
    stale_threshold := 100
    master_generation := 1 }

/-- A concrete quiescent channel (small buffer, even sequence counter). -/
def sampleChannel : ESHMChannel :=
  { seqlock := { sequence := 0 }
    data_size := 0
    data := List.replicate 8 0
    write_count := 0
    read_count := 0 }

/-- A concrete region. -/
def sampleRegion : ESHMData :=
  { header := sampleHeader
    master_to_slave := sampleChannel
    slave_to_master := sampleChannel }

/-- The defaults of `eshm_default_config` (`eshm.h` lines 116-128) for the
identifier `demo`. -/
def sampleConfig : ESHMConfig :=
  { shm_name := some "demo"
    role := ESHMRole.auto
    disconnect_behavior := ESHMDisconnectBehavior.on_timeout
    stale_threshold_ms := 100
    reconnect_wait_ms := 5000
    reconnect_retry_interval_ms := 100
    max_reconnect_attempts := 50
    auto_cleanup := true
    use_threads := true }

/-- A concrete initialized, mapped MASTER handle. -/
def sampleMaster : ESHMHandle :=
  { config := sampleConfig
    actual_role := ESHMRole.master
    shm_fd := 3
    shm_name := "/eshm_demo"
    shm_data := some sampleRegion
    is_creator := true
    threads_running := true
    last_remote_heartbeat := 0
    stale_counter := 0
    remote_is_stale := false
    last_master_heartbeat := 0
    last_slave_heartbeat := 0 }

/-- A concrete initialized, mapped SLAVE handle over the same region. -/
def sampleSlave : ESHMHandle :=
  { sampleMaster with actual_role := ESHMRole.slave, is_creator := false, shm_fd := 4 }

/-- The 13 bytes of `Hello, World!`. -/
def helloBytes : List Nat :=
  [72, 101, 108, 108, 111, 44, 32, 87, 111, 114, 108, 100, 33]

/-- A SLAVE handle whose mapping pointer was nulled during reattachment. -/
def sampleDetachedSlave : ESHMHandle :=
  { sampleSlave with shm_data := none, remote_is_stale := true }

/-- The default configuration with an empty-string identifier. -/
def emptyNameConfig : ESHMConfig :=
  { sampleConfig with shm_name := some "" }

/-- The invariant that the reattach loop preserves while no attempt can
adopt: the state stays a SLAVE in reconnect mode with unchanged
configuration and last observed heartbeat, the attempt count never exceeds
the configured bound, and it is strictly below the bound while the loop is
still running. -/
def reattachInv (cfg : ESHMConfig) (L : Nat) (s : MonitorState) : Prop :=
  s.h.actual_role = ESHMRole.slave ∧ s.in_reconnect_mode = true ∧
  s.h.config = cfg ∧ s.h.last_remote_heartbeat = L ∧
  s.reconnect_attempts ≤ cfg.max_reconnect_attempts ∧
  (s.h.threads_running = true → s.reconnect_attempts < cfg.max_reconnect_attempts)

/-- The configuration used by the C6 witness: attempt bound 2, retry
interval 10 ms, total-wait bound disabled. -/
def boundedConfig : ESHMConfig :=
  { sampleConfig with
      max_reconnect_attempts := 2
      reconnect_wait_ms := 0
      reconnect_retry_interval_ms := 10 }

/-- The monitor state used by the C6 witness: a detached SLAVE in reattach
mode that has not yet attempted. -/
def boundedState : MonitorState :=
  { h := { sampleDetachedSlave with config := boundedConfig }
    reconnect_wait_counter := 0
    reconnect_attempt_counter := 10
    reconnect_attempts := 0
    in_reconnect_mode := true }

/-- A configuration whose total-wait budget (10 ms) elapses at the first
reattach attempt although two attempts are allowed. -/
def timedConfig : ESHMConfig :=
  { sampleConfig with
      max_reconnect_attempts := 2
      reconnect_wait_ms := 10
      reconnect_retry_interval_ms := 10 }

/-- A detached SLAVE in reattach mode under `timedConfig`, as left by the
monitor on entering reconnect mode (attempt counter primed to the retry
interval). -/
def timedState : MonitorState :=
  { h := { sampleDetachedSlave with config := timedConfig }
    reconnect_wait_counter := 0
    reconnect_attempt_counter := 10
    reconnect_attempts := 0
    in_reconnect_mode := true }

/-! ### Helper lemmas -/

/-- The publish step advances the 32-bit sequence counter by exactly two. -/
theorem channelWrite_sequence (ch : ESHMChannel) (x : List Nat) (n : Nat) :
    (channelWrite ch x n).seqlock.sequence
      = (ch.seqlock.sequence + 2) % UINT32_MOD := by
  simp only [channelWrite, seqlock_write_begin, seqlock_write_end, Nat.mod_add_mod]

/-- The publish step preserves evenness of the sequence counter. -/
theorem channelWrite_sequence_even (ch : ESHMChannel) (x : List Nat) (n : Nat)
    (h : ch.seqlock.sequence % 2 = 0) :
    (channelWrite ch x n).seqlock.sequence % 2 = 0 := by
  rw [channelWrite_sequence]
  simp only [UINT32_MOD]
  omega

/-- Along any sequence of publications the counter stays even. -/
theorem channelWriteIter_sequence_even (ws : List (List Nat × Nat)) :
    ∀ ch : ESHMChannel, ch.seqlock.sequence % 2 = 0 →
      (channelWriteIter ch ws).seqlock.sequence % 2 = 0 := by
  induction ws with
  | nil => intro ch h; exact h
  | cons p rest ih =>
      intro ch h
      exact ih (channelWrite ch p.1 p.2) (channelWrite_sequence_even ch p.1 p.2 h)

/-- `seqlock_read_begin` only ever returns an even counter value. -/
theorem seqlock_read_begin_even (fuel : Nat) :
    ∀ (obs : Nat → Nat) (s : Nat), seqlock_read_begin obs fuel = some s → s % 2 = 0 := by
  induction fuel with
  | zero => intro obs s h; simp [seqlock_read_begin] at h
  | succ k ih =>
      intro obs s h
      by_cases hodd : obs 0 % 2 = 1
      · rw [seqlock_read_begin, if_pos hodd] at h
        exact ih _ _ h
      · rw [seqlock_read_begin, if_neg hodd] at h
        injection h with h
        omega

/-- A successful `eshm_write` returns `SUCCESS` and replaces the region by
`regionAfterWrite`. -/
theorem eshm_write_mapped (h : ESHMHandle) (r : ESHMData) (x : List Nat) (n : Nat)
    (hmap : h.shm_data = some r) (hn : ¬ ESHM_MAX_DATA_SIZE < n) :
    eshm_write (some h) (some x) n
      = (ESHM_SUCCESS, some { h with shm_data := some (regionAfterWrite h r x n) }) := by
  simp [eshm_write, hmap, hn]

/-- The outgoing channel after a write is the published channel. -/
theorem writeChannelOf_regionAfterWrite (h : ESHMHandle) (r : ESHMData)
    (x : List Nat) (n : Nat) :
    writeChannelOf h (regionAfterWrite h r x n) = channelWrite (writeChannelOf h r) x n := by
  by_cases hrole : h.actual_role = ESHMRole.master <;>
    simp [writeChannelOf, regionAfterWrite, hrole]

/-- Copying `x` into a buffer and reading back `x.length` bytes returns
exactly `x`. -/
theorem memcpyList_take (dst x : List Nat) :
    (memcpyList dst x x.length).take x.length = x := by
  simp only [memcpyList, List.take_length]
  exact List.take_left x _

/-- When writer and reader hold opposite roles, the reader's incoming channel
after the write is the writer's published channel. -/
theorem readChannelOf_regionAfterWrite_opposite (hW hR : ESHMHandle) (r : ESHMData)
    (x : List Nat) (n : Nat)
    (hroles : (hW.actual_role = ESHMRole.master ∧ hR.actual_role = ESHMRole.slave)
            ∨ (hW.actual_role = ESHMRole.slave ∧ hR.actual_role = ESHMRole.master)) :
    readChannelOf hR (regionAfterWrite hW r x n)
      = channelWrite (readChannelOf hR r) x n := by
  rcases hroles with ⟨hWm, hRs⟩ | ⟨hWs, hRm⟩
  · simp [readChannelOf, regionAfterWrite, hWm, hRs]
  · simp [readChannelOf, regionAfterWrite, hWs, hRm]

/-- Whatever a successful quiescent read returns is the first `data_size`
bytes of the incoming channel observed by the loop, with `bytes_read` equal
to that `data_size`. -/
theorem read_success_bytes (hR : ESHMHandle) (bufsz t : Nat) (later : ESHMData)
    (b : List Nat) (m : Nat)
    (hsucc : (eshm_read_timeout (some hR) true bufsz t later).1
      = ReadOutcome.success b m) :
    b = (readChannelOf hR later).data.take (readChannelOf hR later).data_size
    ∧ m = (readChannelOf hR later).data_size := by
  cases he : hR.shm_data with
  | none =>
    simp only [eshm_read_timeout, he, apply_ite (Prod.fst)] at hsucc
    repeat' split at hsucc
    all_goals exact ReadOutcome.noConfusion hsucc
  | some entry =>
    simp only [eshm_read_timeout, he, apply_ite (Prod.fst)] at hsucc
    repeat' split at hsucc
    all_goals
      first
      | exact ReadOutcome.noConfusion hsucc
      | (injection hsucc with h1 h2
         exact ⟨h1.symm, h2.symm⟩)

/-! ### Claims -/

/-- C10: for every handle (including a fully initialized, mapped one) and
every size `n`, including `n = 0`, `eshm_write(handle, NULL, n)` returns
invalid-parameter without touching any shared state — the null-data check
precedes all other checks, so a zero-length trigger write still requires a
non-null data pointer. -/
theorem eshm_write_null_data_rejected (h : Option ESHMHandle) (size : Nat) :
    eshm_write h none size = (ESHM_ERROR_INVALID_PARAM, h) := by
  cases h <;> rfl

/-- C7: for both `eshm_write` and `eshm_read_timeout`, when the handle's
mapping pointer is NONE at entry the call returns timeout when the
remote-is-stale flag is set and not-initialized when it is not set, and
neither call touches any channel state. -/
theorem mapping_none_error_translation (h : ESHMHandle) (x : List Nat)
    (size bufsz t : Nat) (later : ESHMData)
    (hnone : h.shm_data = none) :
    eshm_write (some h) (some x) size
      = ((if h.remote_is_stale then ESHM_ERROR_TIMEOUT else ESHM_ERROR_NOT_INITIALIZED),
         some h)
  ∧ eshm_read_timeout (some h) true bufsz t later
      = (ReadOutcome.error
          (if h.remote_is_stale then ESHM_ERROR_TIMEOUT else ESHM_ERROR_NOT_INITIALIZED),
         later) := by
  cases hs : h.remote_is_stale <;>
    simp [eshm_write, eshm_read_timeout, hnone, hs]

/-- C7 witness at a concrete detached handle. -/
theorem mapping_none_error_translation_witness :
    eshm_write (some sampleDetachedSlave) (some helloBytes) 13
      = ((if sampleDetachedSlave.remote_is_stale then ESHM_ERROR_TIMEOUT
          else ESHM_ERROR_NOT_INITIALIZED), some sampleDetachedSlave)
  ∧ eshm_read_timeout (some sampleDetachedSlave) true 16 1000 sampleRegion
      = (ReadOutcome.error
          (if sampleDetachedSlave.remote_is_stale then ESHM_ERROR_TIMEOUT
           else ESHM_ERROR_NOT_INITIALIZED), sampleRegion) :=
  mapping_none_error_translation sampleDetachedSlave helloBytes 13 16 1000 sampleRegion rfl

/-- C3: on an initialized, mapped handle, `eshm_write` with a size strictly
greater than the channel capacity returns buffer-too-small and leaves the
handle — hence the sequence counter, payload bytes, payload-length cell and
`write_count` of both channels — completely unchanged, so the peer observes
no change to `write_count`. -/
theorem oversize_write_rejected (h : ESHMHandle) (r : ESHMData) (x : List Nat)
    (size : Nat) (hmap : h.shm_data = some r) (hsize : ESHM_MAX_DATA_SIZE < size) :
    eshm_write (some h) (some x) size = (ESHM_ERROR_BUFFER_TOO_SMALL, some h) := by
  simp [eshm_write, hmap, hsize]

/-- C3 witness: a 4097-byte write against capacity 4096. -/
theorem oversize_write_rejected_witness :
    eshm_write (some sampleMaster) (some (List.replicate 4097 1)) 4097
      = (ESHM_ERROR_BUFFER_TOO_SMALL, some sampleMaster) :=
  oversize_write_rejected sampleMaster sampleRegion (List.replicate 4097 1) 4097 rfl
    (by norm_num [ESHM_MAX_DATA_SIZE])

/-- C9 counterexample: the empty-string identifier passes `eshm_init`'s
parameter validation (only a `NULL` pointer is rejected), and the region
name it yields is `/eshm_`, so init proceeds to create a region rather than
reporting invalid-parameter. -/
theorem empty_identifier_accepted :
    eshm_init_param_check (some emptyNameConfig) = true
  ∧ generate_shm_name "" = "/eshm_" := by
  constructor
  · rfl
  · rfl

/-- C9 amended: `eshm_init` rejects with invalid-parameter exactly an absent
(null) configuration or identifier; an empty-string identifier is accepted
by the validation and proceeds (its region name being `/eshm_`). -/
theorem identifier_validation (c : ESHMConfig) :
    eshm_init_param_check none = false
  ∧ (eshm_init_param_check (some c) = false ↔ c.shm_name = none)
  ∧ (c.shm_name = some "" → eshm_init_param_check (some c) = true) := by
  refine ⟨rfl, ?_, ?_⟩
  · cases hn : c.shm_name <;> simp [eshm_init_param_check, hn]
  · intro hn; simp [eshm_init_param_check, hn]

/-- C9 amended-claim witness at the empty-string configuration. -/
theorem identifier_validation_witness :
    eshm_init_param_check (some emptyNameConfig) = true :=
  (identifier_validation emptyNameConfig).2.2 rfl

/-- C2: the sequence counter starts at 0 after channel initialization; a
completed publish raises it to an odd value for the duration of the publish
(`seqlock_write_begin`) and leaves it even, incremented by exactly two,
afterwards, so it is even at every quiescent instant along any execution;
`eshm_write` on a mapped handle performs exactly this publish on its
outgoing channel; and the reader retries while it observes an odd counter
(`seqlock_read_begin` never returns an odd snapshot counter) or a counter
that changed across its copy (`seqlock_read_retry`). -/
theorem seqlock_parity_protocol :
    init_channel.seqlock.sequence = 0
  ∧ (∀ lock : ESHMSeqLock, lock.sequence % 2 = 0 →
      (seqlock_write_begin lock).sequence % 2 = 1)
  ∧ (∀ (ch : ESHMChannel) (x : List Nat) (n : Nat),
      (channelWrite ch x n).seqlock.sequence = (ch.seqlock.sequence + 2) % UINT32_MOD
      ∧ (ch.seqlock.sequence % 2 = 0 →
          (channelWrite ch x n).seqlock.sequence % 2 = 0))
  ∧ (∀ (h : ESHMHandle) (r : ESHMData) (x : List Nat) (n : Nat),
      h.shm_data = some r → ¬ ESHM_MAX_DATA_SIZE < n →
      eshm_write (some h) (some x) n
        = (ESHM_SUCCESS, some { h with shm_data := some (regionAfterWrite h r x n) })
      ∧ writeChannelOf h (regionAfterWrite h r x n)
          = channelWrite (writeChannelOf h r) x n)
  ∧ (∀ ws : List (List Nat × Nat),
      (channelWriteIter init_channel ws).seqlock.sequence % 2 = 0)
  ∧ (∀ (obs : Nat → Nat) (fuel s : Nat),
      seqlock_read_begin obs fuel = some s → s % 2 = 0)
  ∧ (∀ (lock : ESHMSeqLock) (seq : Nat),
      seqlock_read_retry lock seq = true ↔ lock.sequence ≠ seq) := by
  refine ⟨rfl, ?_, ?_, ?_, ?_, ?_, ?_⟩
  · intro lock h
    simp only [seqlock_write_begin]
    rw [Nat.mod_mod_of_dvd _ (by norm_num [UINT32_MOD] : (2 : Nat) ∣ UINT32_MOD)]
    omega
  · intro ch x n
    exact ⟨channelWrite_sequence ch x n, channelWrite_sequence_even ch x n⟩
  · intro h r x n hmap hn
    exact ⟨eshm_write_mapped h r x n hmap hn, writeChannelOf_regionAfterWrite h r x n⟩
  · intro ws
    exact channelWriteIter_sequence_even ws init_channel rfl
  · intro obs fuel s h
    exact seqlock_read_begin_even fuel obs s h
  · intro lock seq
    simp [seqlock_read_retry]

/-- C1: round-trip integrity.  For every byte string `x` with
`x.length ≤ ESHM_MAX_DATA_SIZE`, if `eshm_write(handle, x, n)` completes on a
mapped handle and a subsequent `eshm_read_ex` on the peer's handle (opposite
role, hence the opposite channel) returns SUCCESS with no intervening write,
then the delivered bytes equal `x` exactly and the reported `bytes_read`
equals `x.length` — a partial or mixed payload is never observed. -/
theorem write_read_roundtrip
    (hW hR : ESHMHandle) (r : ESHMData) (x : List Nat) (bufsz t : Nat)
    (b : List Nat) (m : Nat)
    (hroles : (hW.actual_role = ESHMRole.master ∧ hR.actual_role = ESHMRole.slave)
            ∨ (hW.actual_role = ESHMRole.slave ∧ hR.actual_role = ESHMRole.master))
    (hmap : hW.shm_data = some r)
    (hcap : x.length ≤ ESHM_MAX_DATA_SIZE)
    (hsucc : (eshm_read_ex (some hR) true bufsz t
        (regionAfterWrite hW r x x.length)).1 = ReadOutcome.success b m) :
    eshm_write (some hW) (some x) x.length
      = (ESHM_SUCCESS,
         some { hW with shm_data := some (regionAfterWrite hW r x x.length) })
    ∧ b = x ∧ m = x.length := by
  refine ⟨eshm_write_mapped hW r x x.length hmap (by omega), ?_, ?_⟩
  all_goals
    rw [eshm_read_ex] at hsucc
    have hbytes := read_success_bytes hR bufsz t (regionAfterWrite hW r x x.length) b m hsucc
    rw [readChannelOf_regionAfterWrite_opposite hW hR r x x.length hroles] at hbytes
  · rw [hbytes.1]
    show (memcpyList (readChannelOf hR r).data x x.length).take x.length = x
    exact memcpyList_take _ x
  · exact hbytes.2

/-- C1 witness: the 13-byte `Hello, World!` round trip of scenario S1. -/
theorem write_read_roundtrip_witness :
    eshm_write (some sampleMaster) (some helloBytes) helloBytes.length
      = (ESHM_SUCCESS,
         some { sampleMaster with
            shm_data := some
              (regionAfterWrite sampleMaster sampleRegion helloBytes helloBytes.length) })
    ∧ helloBytes = helloBytes ∧ (13 : Nat) = helloBytes.length :=
  write_read_roundtrip sampleMaster sampleSlave sampleRegion helloBytes 13 1000
    helloBytes 13 (Or.inl ⟨rfl, rfl⟩) rfl (by decide) (by decide)

/-- C4: zero-length write semantics.  On an initialized, mapped handle a
write of zero bytes with a valid data pointer returns SUCCESS, sets the
payload-length cell to 0, advances the outgoing channel's `write_count` by
exactly 1, and a subsequent `eshm_read_ex` on the peer returns SUCCESS with
observed length 0. -/
theorem zero_length_write_semantics
    (hW hR : ESHMHandle) (r : ESHMData) (bufsz t : Nat)
    (hroles : (hW.actual_role = ESHMRole.master ∧ hR.actual_role = ESHMRole.slave)
            ∨ (hW.actual_role = ESHMRole.slave ∧ hR.actual_role = ESHMRole.master))
    (hWmap : hW.shm_data = some r)
    (hRmap : hR.shm_data = some r)
    (hstale : hR.remote_is_stale = false) :
    eshm_write (some hW) (some []) 0
      = (ESHM_SUCCESS, some { hW with shm_data := some (regionAfterWrite hW r [] 0) })
    ∧ (writeChannelOf hW (regionAfterWrite hW r [] 0)).data_size = 0
    ∧ (writeChannelOf hW (regionAfterWrite hW r [] 0)).write_count
        = (writeChannelOf hW r).write_count + 1
    ∧ (eshm_read_ex (some hR) true bufsz t (regionAfterWrite hW r [] 0)).1
        = ReadOutcome.success [] 0 := by
  have hch := readChannelOf_regionAfterWrite_opposite hW hR r [] 0 hroles
  refine ⟨eshm_write_mapped hW r [] 0 hWmap (by norm_num [ESHM_MAX_DATA_SIZE]), ?_, ?_, ?_⟩
  · rw [writeChannelOf_regionAfterWrite]
    simp [channelWrite]
  · rw [writeChannelOf_regionAfterWrite]
    simp [channelWrite]
  · simp [eshm_read_ex, eshm_read_timeout, hRmap, hstale, hch, channelWrite]

/-- C4 witness: the zero-length trigger of scenario S2. -/
theorem zero_length_write_semantics_witness :
    eshm_write (some sampleMaster) (some []) 0
      = (ESHM_SUCCESS,
         some { sampleMaster with
            shm_data := some (regionAfterWrite sampleMaster sampleRegion [] 0) })
    ∧ (writeChannelOf sampleMaster (regionAfterWrite sampleMaster sampleRegion [] 0)).data_size = 0
    ∧ (writeChannelOf sampleMaster (regionAfterWrite sampleMaster sampleRegion [] 0)).write_count
        = (writeChannelOf sampleMaster sampleRegion).write_count + 1
    ∧ (eshm_read_ex (some sampleSlave) true 64 1000
        (regionAfterWrite sampleMaster sampleRegion [] 0)).1
        = ReadOutcome.success [] 0 :=
  zero_length_write_semantics sampleMaster sampleSlave sampleRegion 64 1000
    (Or.inl ⟨rfl, rfl⟩) rfl rfl rfl

/-- C5: reattach adoption rule.  When a SLAVE reattach attempt succeeds in
opening and mapping the region and the magic is valid, the monitor compares
the mapped MASTER heartbeat with the last observed remote heartbeat: if they
are equal it does not adopt (the handle keeps no mapping and is otherwise
unchanged, the new mapping being unmapped and closed); if they differ it
adopts — stores the new mapping pointer and descriptor, writes the slave PID
and alive flag, resets the stale counter, clears the remote-is-stale flag,
updates the last observed heartbeat — and the monitor tick returns to normal
monitoring (reconnect mode left, reconnect counters cleared). -/
theorem slave_reattach_adoption (h : ESHMHandle) (pid : Nat) (d : ESHMData) (fd : Int)
    (hmagic : d.header.magic = ESHM_MAGIC) :
    (d.header.master_heartbeat = h.last_remote_heartbeat →
      slaveReattachAttempt h pid (AttachOutcome.mapped d fd)
        = ({ h with shm_data := none }, false))
  ∧ (d.header.master_heartbeat ≠ h.last_remote_heartbeat →
      slaveReattachAttempt h pid (AttachOutcome.mapped d fd)
        = ({ h with
              shm_fd := fd
              shm_data := some
                { d with header := { d.header with slave_pid := pid, slave_alive := 1 } }
              remote_is_stale := false
              stale_counter := 0
              last_remote_heartbeat := d.header.master_heartbeat }, true))
  ∧ (∀ s : MonitorState,
      s.h = h → h.threads_running = true → h.actual_role = ESHMRole.slave →
      s.in_reconnect_mode = true →
      h.config.reconnect_retry_interval_ms
        ≤ s.reconnect_attempt_counter + monitor_check_interval_ms →
      d.header.master_heartbeat ≠ h.last_remote_heartbeat →
      monitorTick pid (AttachOutcome.mapped d fd) s
        = { h := (slaveReattachAttempt h pid (AttachOutcome.mapped d fd)).1
            reconnect_wait_counter := 0
            reconnect_attempt_counter := 0
            reconnect_attempts := 0
            in_reconnect_mode := false }) := by
  refine ⟨?_, ?_, ?_⟩
  · intro heq
    simp [slaveReattachAttempt, hmagic, heq]
  · intro hne
    simp [slaveReattachAttempt, hmagic, hne]
  · intro s hs hrun hrole hmode hac hne
    have hat : (slaveReattachAttempt h pid (AttachOutcome.mapped d fd)).2 = true := by
      simp [slaveReattachAttempt, hmagic, hne]
    subst hs
    simp [monitorTick, reattachTick, hrun, hrole, hmode, hac, hat]

/-- C5 witness: one adopting attempt (fresh heartbeat 6 differs from the last
observed 0) and one non-adopting attempt (heartbeat equal to the last
observed 5). -/
theorem slave_reattach_adoption_witness :
    slaveReattachAttempt sampleDetachedSlave 200 (AttachOutcome.mapped sampleRegion 7)
      = ({ sampleDetachedSlave with
            shm_fd := 7
            shm_data := some
              { sampleRegion with header :=
                  { sampleRegion.header with slave_pid := 200, slave_alive := 1 } }
            remote_is_stale := false
            stale_counter := 0
            last_remote_heartbeat := sampleRegion.header.master_heartbeat }, true)
    ∧ slaveReattachAttempt { sampleDetachedSlave with last_remote_heartbeat := 5 } 200
        (AttachOutcome.mapped sampleRegion 7)
      = ({ { sampleDetachedSlave with last_remote_heartbeat := 5 } with
            shm_data := none }, false) :=
  ⟨(slave_reattach_adoption sampleDetachedSlave 200 sampleRegion 7 rfl).2.1 (by decide),
   (slave_reattach_adoption { sampleDetachedSlave with last_remote_heartbeat := 5 } 200
      sampleRegion 7 rfl).1 (by decide)⟩

/-- Once the running flag is clear a monitor tick changes nothing. -/
theorem monitorTick_stopped (pid : Nat) (e : AttachOutcome) (s : MonitorState)
    (h : s.h.threads_running = false) : monitorTick pid e s = s := by
  simp [monitorTick, h]

/-- Once the running flag is clear the monitor never moves again. -/
theorem monitorRun_stopped (pid : Nat) (env : Nat → AttachOutcome) (s : MonitorState)
    (h : s.h.threads_running = false) (t : Nat) : monitorRun pid env s t = s := by
  induction t with
  | zero => rfl
  | succ k ih => rw [monitorRun, ih, monitorTick_stopped _ _ _ h]

/-- Splitting a monitor run at tick `a`. -/
theorem monitorRun_add (pid : Nat) (env : Nat → AttachOutcome) (s : MonitorState)
    (a b : Nat) :
    monitorRun pid env s (a + b)
      = monitorRun pid (fun u => env (a + u)) (monitorRun pid env s a) b := by
  induction b with
  | zero => rfl
  | succ k ih =>
      show monitorTick pid (env (a + k)) (monitorRun pid env s (a + k)) = _
      rw [ih]
      rfl

/-- An attempt in an environment whose mapped MASTER heartbeat never differs
from the last observed one does not adopt: the handle merely loses its
mapping. -/
theorem slaveReattachAttempt_noAdopt (h : ESHMHandle) (pid : Nat) (e : AttachOutcome)
    (L : Nat) (hL : h.last_remote_heartbeat = L)
    (he : ∀ d fd, e = AttachOutcome.mapped d fd → d.header.master_heartbeat = L) :
    slaveReattachAttempt h pid e = ({ h with shm_data := none }, false) := by
  cases e with
  | fail => rfl
  | mapped d fd =>
      have hd := he d fd rfl
      by_cases hm : d.header.magic ≠ ESHM_MAGIC
      · simp [slaveReattachAttempt, hm]
      · simp [slaveReattachAttempt, hm, hd, hL]

/-- Characterization of one reattach-mode tick when no attempt can adopt and
the total-wait bound is unbounded (`reconnect_wait_ms = 0`). -/
theorem monitorTick_reattach_noAdopt (pid : Nat) (e : AttachOutcome) (s : MonitorState)
    (L : Nat)
    (hrun : s.h.threads_running = true)
    (hrole : s.h.actual_role = ESHMRole.slave)
    (hmode : s.in_reconnect_mode = true)
    (hwait : s.h.config.reconnect_wait_ms = 0)
    (hL : s.h.last_remote_heartbeat = L)
    (he : ∀ d fd, e = AttachOutcome.mapped d fd → d.header.master_heartbeat = L) :
    monitorTick pid e s =
      if s.h.config.reconnect_retry_interval_ms
          ≤ s.reconnect_attempt_counter + monitor_check_interval_ms then
        if 0 < s.h.config.max_reconnect_attempts ∧
            s.h.config.max_reconnect_attempts ≤ s.reconnect_attempts + 1 then
          { s with
              h := { s.h with shm_data := none, threads_running := false }
              reconnect_wait_counter := s.reconnect_wait_counter + monitor_check_interval_ms
              reconnect_attempt_counter := 0
              reconnect_attempts := s.reconnect_attempts + 1 }
        else
          { s with
              h := { s.h with shm_data := none }
              reconnect_wait_counter := s.reconnect_wait_counter + monitor_check_interval_ms
              reconnect_attempt_counter := 0
              reconnect_attempts := s.reconnect_attempts + 1 }
      else
        { s with
            reconnect_wait_counter := s.reconnect_wait_counter + monitor_check_interval_ms
            reconnect_attempt_counter :=
              s.reconnect_attempt_counter + monitor_check_interval_ms } := by
  have hat := slaveReattachAttempt_noAdopt s.h pid e L hL he
  by_cases hac : s.h.config.reconnect_retry_interval_ms
      ≤ s.reconnect_attempt_counter + monitor_check_interval_ms
  · by_cases hmax : 0 < s.h.config.max_reconnect_attempts ∧
        s.h.config.max_reconnect_attempts ≤ s.reconnect_attempts + 1
    · simp [monitorTick, reattachTick, hrun, hrole, hmode, hwait, hat, hac, hmax]
    · simp [monitorTick, reattachTick, hrun, hrole, hmode, hwait, hat, hac, hmax]
  · simp [monitorTick, reattachTick, hrun, hrole, hmode, hwait, hat, hac]

/-- One no-adopt tick preserves `reattachInv`. -/
theorem reattachInv_step (pid : Nat) (cfg : ESHMConfig) (L : Nat) (e : AttachOutcome)
    (s : MonitorState)
    (hwait : cfg.reconnect_wait_ms = 0) (hN : 0 < cfg.max_reconnect_attempts)
    (hinv : reattachInv cfg L s)
    (he : ∀ d fd, e = AttachOutcome.mapped d fd → d.header.master_heartbeat = L) :
    reattachInv cfg L (monitorTick pid e s) := by
  obtain ⟨hrole, hmode, hcfg, hL, hle, hlt⟩ := hinv
  by_cases hrun : s.h.threads_running = true
  · have hltN := hlt hrun
    rw [monitorTick_reattach_noAdopt pid e s L hrun hrole hmode (hcfg ▸ hwait) hL he]
    split
    · split
      · refine ⟨hrole, hmode, hcfg, hL, ?_, ?_⟩
        · show s.reconnect_attempts + 1 ≤ cfg.max_reconnect_attempts
          omega
        · show false = true → s.reconnect_attempts + 1 < cfg.max_reconnect_attempts
          intro hc
          cases hc
      · rename_i hmax
        rw [hcfg] at hmax
        refine ⟨hrole, hmode, hcfg, hL, ?_, ?_⟩
        · show s.reconnect_attempts + 1 ≤ cfg.max_reconnect_attempts
          omega
        · show s.h.threads_running = true →
            s.reconnect_attempts + 1 < cfg.max_reconnect_attempts
          intro _
          omega
    · exact ⟨hrole, hmode, hcfg, hL, hle, fun _ => hltN⟩
  · rw [monitorTick_stopped pid e s (by revert hrun; cases s.h.threads_running <;> simp)]
    exact ⟨hrole, hmode, hcfg, hL, hle, hlt⟩

/-- `reattachInv` holds along the whole run. -/
theorem reattachInv_run (pid : Nat) (cfg : ESHMConfig) (L : Nat)
    (env : Nat → AttachOutcome) (s : MonitorState)
    (hwait : cfg.reconnect_wait_ms = 0) (hN : 0 < cfg.max_reconnect_attempts)
    (hinv : reattachInv cfg L s)
    (he : ∀ t d fd, env t = AttachOutcome.mapped d fd → d.header.master_heartbeat = L)
    (t : Nat) : reattachInv cfg L (monitorRun pid env s t) := by
  induction t with
  | zero => exact hinv
  | succ k ih => exact reattachInv_step pid cfg L (env k) _ hwait hN ih (he k)

/-- Progress: from a running reattach-mode state, within at most `m + 1`
ticks (provided the retry interval is reachable with that fuel) exactly one
more attempt happens; the loop is still running afterwards iff the attempt
bound was not reached by that attempt. -/
theorem reattach_progress (pid : Nat) (cfg : ESHMConfig) (L : Nat)
    (hwait : cfg.reconnect_wait_ms = 0) :
    ∀ (m : Nat) (env : Nat → AttachOutcome) (s : MonitorState),
    (∀ t d fd, env t = AttachOutcome.mapped d fd → d.header.master_heartbeat = L) →
    s.h.threads_running = true →
    s.h.actual_role = ESHMRole.slave → s.in_reconnect_mode = true →
    s.h.config = cfg → s.h.last_remote_heartbeat = L →
    cfg.reconnect_retry_interval_ms
      ≤ s.reconnect_attempt_counter + monitor_check_interval_ms * (m + 1) →
    ∃ u, u ≤ m + 1
      ∧ (monitorRun pid env s u).reconnect_attempts = s.reconnect_attempts + 1
      ∧ (monitorRun pid env s u).h.actual_role = ESHMRole.slave
      ∧ (monitorRun pid env s u).in_reconnect_mode = true
      ∧ (monitorRun pid env s u).h.config = cfg
      ∧ (monitorRun pid env s u).h.last_remote_heartbeat = L
      ∧ ((monitorRun pid env s u).h.threads_running = true
          ↔ ¬(0 < cfg.max_reconnect_attempts ∧
              cfg.max_reconnect_attempts ≤ s.reconnect_attempts + 1)) := by
  intro m
  induction m with
  | zero =>
      intro env s henv hrun hrole hmode hcfg hL hfuel
      refine ⟨1, le_refl 1, ?_⟩
      have hac : s.h.config.reconnect_retry_interval_ms
          ≤ s.reconnect_attempt_counter + monitor_check_interval_ms := by
        rw [hcfg]
        simpa using hfuel
      have h1 : monitorRun pid env s 1 = monitorTick pid (env 0) s := rfl
      rw [h1, monitorTick_reattach_noAdopt pid (env 0) s L hrun hrole hmode
            (hcfg ▸ hwait) hL (henv 0), if_pos hac]
      split
      · rename_i hmax
        rw [hcfg] at hmax
        exact ⟨rfl, hrole, hmode, hcfg, hL, by simp [hmax]⟩
      · rename_i hmax
        rw [hcfg] at hmax
        exact ⟨rfl, hrole, hmode, hcfg, hL, by simp [hrun, hmax]⟩
  | succ m ih =>
      intro env s henv hrun hrole hmode hcfg hL hfuel
      by_cases hac : s.h.config.reconnect_retry_interval_ms
          ≤ s.reconnect_attempt_counter + monitor_check_interval_ms
      · -- an attempt happens on the very next tick
        refine ⟨1, by omega, ?_⟩
        have h1 : monitorRun pid env s 1 = monitorTick pid (env 0) s := rfl
        rw [h1, monitorTick_reattach_noAdopt pid (env 0) s L hrun hrole hmode
              (hcfg ▸ hwait) hL (henv 0), if_pos (hcfg ▸ hac)]
        split
        · rename_i hmax
          rw [hcfg] at hmax
          exact ⟨rfl, hrole, hmode, hcfg, hL, by simp [hmax]⟩
        · rename_i hmax
          rw [hcfg] at hmax
          exact ⟨rfl, hrole, hmode, hcfg, hL, by simp [hrun, hmax]⟩
      · -- no attempt this tick; recurse with one tick less fuel
        have h1 : monitorRun pid env s 1 = monitorTick pid (env 0) s := rfl
        have hstep : monitorTick pid (env 0) s
            = { s with
                  reconnect_wait_counter :=
                    s.reconnect_wait_counter + monitor_check_interval_ms
                  reconnect_attempt_counter :=
                    s.reconnect_attempt_counter + monitor_check_interval_ms } := by
          rw [monitorTick_reattach_noAdopt pid (env 0) s L hrun hrole hmode
                (hcfg ▸ hwait) hL (henv 0), if_neg (by rw [hcfg] at hac; exact hcfg ▸ hac)]
        obtain ⟨u, hu, hatt, hrole2, hmode2, hcfg2, hL2, hrun2⟩ :=
          ih (fun v => env (1 + v)) (monitorTick pid (env 0) s)
            (fun t d fd hmap => henv (1 + t) d fd hmap)
            (by rw [hstep]; exact hrun)
            (by rw [hstep]; exact hrole)
            (by rw [hstep]; exact hmode)
            (by rw [hstep]; exact hcfg)
            (by rw [hstep]; exact hL)
            (by rw [hstep]
                show cfg.reconnect_retry_interval_ms
                  ≤ s.reconnect_attempt_counter + monitor_check_interval_ms
                      + monitor_check_interval_ms * (m + 1)
                have : monitor_check_interval_ms
                    + monitor_check_interval_ms * (m + 1)
                    = monitor_check_interval_ms * (m + 1 + 1) := by ring
                omega)
        refine ⟨1 + u, by omega, ?_⟩
        rw [monitorRun_add pid env s 1 u, h1]
        have hattS : (monitorTick pid (env 0) s).reconnect_attempts
            = s.reconnect_attempts := by rw [hstep]
        rw [hattS] at hatt hrun2
        exact ⟨hatt, hrole2, hmode2, hcfg2, hL2, hrun2⟩

/-- Chaining progress: from a running reattach-mode state with `k` attempts
remaining to the bound, some tick count reaches exactly the bound with the
running flag cleared. -/
theorem reattach_reaches_bound (pid : Nat) (cfg : ESHMConfig) (L : Nat)
    (hwait : cfg.reconnect_wait_ms = 0) (hN : 0 < cfg.max_reconnect_attempts) :
    ∀ (k : Nat) (env : Nat → AttachOutcome) (s : MonitorState),
    (∀ t d fd, env t = AttachOutcome.mapped d fd → d.header.master_heartbeat = L) →
    s.h.threads_running = true →
    s.h.actual_role = ESHMRole.slave → s.in_reconnect_mode = true →
    s.h.config = cfg → s.h.last_remote_heartbeat = L →
    0 < k → s.reconnect_attempts + k = cfg.max_reconnect_attempts →
    ∃ T, (monitorRun pid env s T).reconnect_attempts = cfg.max_reconnect_attempts
      ∧ (monitorRun pid env s T).h.threads_running = false := by
  intro k
  induction k with
  | zero => intro env s _ _ _ _ _ _ hk; omega
  | succ k ih =>
      intro env s henv hrun hrole hmode hcfg hL _ hsum
      obtain ⟨u, _, hatt, hrole2, hmode2, hcfg2, hL2, hrun2⟩ :=
        reattach_progress pid cfg L hwait cfg.reconnect_retry_interval_ms env s henv
          hrun hrole hmode hcfg hL
          (by have : cfg.reconnect_retry_interval_ms
                ≤ monitor_check_interval_ms * (cfg.reconnect_retry_interval_ms + 1) := by
                simp [monitor_check_interval_ms]
                omega
              omega)
      rcases Nat.eq_zero_or_pos k with hk0 | hkpos
      · -- this attempt was the last one: the bound is reached and the loop stops
        subst hk0
        refine ⟨u, ?_, ?_⟩
        · omega
        · have : ¬ ((monitorRun pid env s u).h.threads_running = true) := by
            rw [hrun2]
            simp only [not_not]
            constructor
            · exact hN
            · omega
          revert this
          cases (monitorRun pid env s u).h.threads_running <;> simp
      · -- more attempts remain: the loop keeps running; recurse
        have hrun3 : (monitorRun pid env s u).h.threads_running = true := by
          rw [hrun2]
          intro hcon
          omega
        obtain ⟨T2, hT2a, hT2b⟩ :=
          ih (fun v => env (u + v)) (monitorRun pid env s u)
            (fun t d fd hmap => henv (u + t) d fd hmap)
            hrun3 hrole2 hmode2 hcfg2 hL2 hkpos (by omega)
        refine ⟨u + T2, ?_, ?_⟩
        · rw [monitorRun_add pid env s u T2]
          exact hT2a
        · rw [monitorRun_add pid env s u T2]
          exact hT2b

/-- C6: bounded reconnect.  If `max_reconnect_attempts = N > 0` (and the
total-wait budget is unbounded) and the SLAVE in reattach mode never
observes a MASTER heartbeat different from the last observed one, then the
monitor never performs more than `N` reattach attempts, and some tick count
reaches exactly `N` attempts with the running flag cleared, after which the
monitor state never changes again — no further attempts occur after the
`N`-th. -/
theorem bounded_reconnect (pid : Nat) (env : Nat → AttachOutcome) (s : MonitorState)
    (N : Nat)
    (hN : s.h.config.max_reconnect_attempts = N) (hNpos : 0 < N)
    (hwait : s.h.config.reconnect_wait_ms = 0)
    (hrole : s.h.actual_role = ESHMRole.slave)
    (hmode : s.in_reconnect_mode = true)
    (hrun : s.h.threads_running = true)
    (hatt : s.reconnect_attempts = 0)
    (henv : ∀ t d fd, env t = AttachOutcome.mapped d fd →
        d.header.master_heartbeat = s.h.last_remote_heartbeat) :
    (∀ t, (monitorRun pid env s t).reconnect_attempts ≤ N)
  ∧ ∃ T, (monitorRun pid env s T).reconnect_attempts = N
      ∧ (monitorRun pid env s T).h.threads_running = false
      ∧ ∀ t, monitorRun pid env s (T + t) = monitorRun pid env s T := by
  have hinv0 : reattachInv s.h.config s.h.last_remote_heartbeat s := by
    refine ⟨hrole, hmode, rfl, rfl, by omega, fun _ => by omega⟩
  constructor
  · intro t
    have := reattachInv_run pid s.h.config s.h.last_remote_heartbeat env s hwait
      (by omega) hinv0 henv t
    have h5 := this.2.2.2.2.1
    omega
  · obtain ⟨T, hTa, hTb⟩ :=
      reattach_reaches_bound pid s.h.config s.h.last_remote_heartbeat hwait
        (by omega) N env s henv hrun hrole hmode rfl rfl hNpos (by omega)
    refine ⟨T, by omega, hTb, ?_⟩
    intro t
    rw [monitorRun_add pid env s T t]
    exact monitorRun_stopped pid _ _ hTb t

/-- C6 witness: bound 2 with an environment whose open always fails. -/
theorem bounded_reconnect_witness :
    (∀ t, (monitorRun 200 (fun _ => AttachOutcome.fail) boundedState t).reconnect_attempts ≤ 2)
  ∧ ∃ T, (monitorRun 200 (fun _ => AttachOutcome.fail) boundedState T).reconnect_attempts = 2
      ∧ (monitorRun 200 (fun _ => AttachOutcome.fail) boundedState T).h.threads_running = false
      ∧ ∀ t, monitorRun 200 (fun _ => AttachOutcome.fail) boundedState (T + t)
          = monitorRun 200 (fun _ => AttachOutcome.fail) boundedState T :=
  bounded_reconnect 200 (fun _ => AttachOutcome.fail) boundedState 2
    rfl (by decide) rfl rfl rfl rfl rfl
    (fun t d fd hmap => nomatch hmap)

/-- C6 counterexample: with `max_reconnect_attempts = 2` but a total-wait
budget of 10 ms and retry interval 10 ms, the monitor clears the running
flag at the very first tick after a single reattach attempt — the time-based
bound (`eshm.c` lines 289-295) fires before the second attempt, so the
monitor does not perform exactly `N = 2` attempts before stopping (even 49
ticks later only one attempt has ever happened). -/
theorem bounded_reconnect_time_bound_counterexample :
    timedState.h.config.max_reconnect_attempts = 2
  ∧ (monitorRun 200 (fun _ => AttachOutcome.fail) timedState 1).reconnect_attempts = 1
  ∧ (monitorRun 200 (fun _ => AttachOutcome.fail) timedState 1).h.threads_running = false
  ∧ (monitorRun 200 (fun _ => AttachOutcome.fail) timedState 50).reconnect_attempts = 1
  ∧ (monitorRun 200 (fun _ => AttachOutcome.fail) timedState 50).h.threads_running = false := by
  have h1 : (monitorRun 200 (fun _ => AttachOutcome.fail) timedState 1).h.threads_running
      = false := by decide
  have h50 : monitorRun 200 (fun _ => AttachOutcome.fail) timedState 50
      = monitorRun 200 (fun _ => AttachOutcome.fail) timedState 1 := by
    rw [show (50 : Nat) = 1 + 49 from rfl, monitorRun_add]
    exact monitorRun_stopped _ _ _ h1 49
  refine ⟨rfl, by decide, h1, ?_, ?_⟩
  · rw [h50]
    decide
  · rw [h50]
    exact h1

/-- C10 witness at a concrete fully mapped handle and size 0. -/
theorem eshm_write_null_data_rejected_witness :
    eshm_write (some sampleMaster) none 0
      = (ESHM_ERROR_INVALID_PARAM, some sampleMaster) :=
  eshm_write_null_data_rejected (some sampleMaster) 0

/-- C2 witness at concrete counters, channel, handle and observation
stream. -/
theorem seqlock_parity_protocol_witness :
    (seqlock_write_begin { sequence := 4 }).sequence % 2 = 1
  ∧ (channelWrite sampleChannel helloBytes 13).seqlock.sequence % 2 = 0
  ∧ eshm_write (some sampleMaster) (some helloBytes) 13
      = (ESHM_SUCCESS, some { sampleMaster with
          shm_data := some (regionAfterWrite sampleMaster sampleRegion helloBytes 13) })
  ∧ (2 : Nat) % 2 = 0 :=
  ⟨seqlock_parity_protocol.2.1 { sequence := 4 } rfl,
   (seqlock_parity_protocol.2.2.1 sampleChannel helloBytes 13).2 rfl,
   (seqlock_parity_protocol.2.2.2.1 sampleMaster sampleRegion helloBytes 13 rfl
      (by norm_num [ESHM_MAX_DATA_SIZE])).1,
   seqlock_parity_protocol.2.2.2.2.2.1 (fun _ => 2) 1 2 rfl⟩

end ESHM
